import Mathlib

/-!
Verification of the email-confirmed polling application (src/app.py).

We give a shallow embedding of the application's persistent state (the
sqlite schema created by `init_db`), of the token workflow, and of the
HTTP handlers `create_poll`, `poll`, `vote`, `confirm_vote` and `results`,
and prove the specification's claims about them.

Conventions of the embedding:
* timestamps (`datetime` values) are integers;
* Python strings are Lean `String`s, and the string helpers used by the
  handlers (`strip`, `lower`, slicing, `isdigit`, the email regex) are
  implemented structurally over the character list;
* each handler is a pure function from the database state (plus its
  request inputs) to an outcome together with the resulting database
  state; handlers that perform no write return the input state in every
  branch, exactly as the source code only issues SELECTs there;
* the per-IP rate-limit guard (`rate_limits` table) is an external
  collaborator and is not part of the modelled durable state, matching
  the spec's scoping.
-/

namespace ZamaPolls

/-! ## Data model: the schema of `init_db` -/

/-- A row of the `polls` table. -/
structure PollRow where
  id : String
  question : String
  created_at : Int
  is_active : Bool
  max_votes : Nat
  expire_date : Option Int
  deriving Repr, DecidableEq

/-- A row of the `options` table. -/
structure OptionRow where
  id : Nat
  poll_id : String
  option_text : String
  votes : Nat
  deriving Repr, DecidableEq

/-- A row of the `votes` table. -/
structure VoteRow where
  id : Nat
  poll_id : String
  email : String
  option_id : Nat
  confirmed : Bool
  ip_address : String
  voted_at : Int
  deriving Repr, DecidableEq

/-- The durable store: the three poll-related tables. -/
structure DB where
  polls : List PollRow
  options : List OptionRow
  votes : List VoteRow
  deriving Repr, DecidableEq

/-- The freshly initialised database (`init_db` creates empty tables). -/
def initDB : DB := ⟨[], [], []⟩

/-! ## String helpers (Python semantics) -/

/-- Python `str.strip` whitespace (the characters relevant to form input). -/
def isSpaceChar (c : Char) : Bool :=
  c == ' ' || c == '\t' || c == '\n' || c == '\r'

/-- Python `s.strip()`. -/
def pyStrip (s : String) : String :=
  ⟨((s.data.dropWhile isSpaceChar).reverse.dropWhile isSpaceChar).reverse⟩

/-- Python `s.lower()`. -/
def pyLower (s : String) : String := ⟨s.data.map Char.toLower⟩

/-- Python `s[:n]`. -/
def pyTake (n : Nat) (s : String) : String := ⟨s.data.take n⟩

/-- Python `s.isdigit()` on ASCII input: nonempty and all digits. -/
def isDigitStr (l : List Char) : Bool := !l.isEmpty && l.all Char.isDigit

/-- Numeric value of a digit string (sqlite's coercion of a digit TEXT
value to the INTEGER columns it is compared against or stored into). -/
def parseNat (l : List Char) : Nat :=
  l.foldl (fun n c => n * 10 + (c.toNat - '0'.toNat)) 0

/-- One character of the regex class `[a-f0-9]`. -/
def isHexChar (c : Char) : Bool := c.isDigit || ('a' ≤ c && c ≤ 'f')

/-- The poll-identifier shape check `re.match(r'^[a-f0-9]{12}$', poll_id)`
used by the `poll` and `results` handlers. -/
def isHex12 (s : String) : Bool := s.length == 12 && s.data.all isHexChar

/-- Splits a character list at every occurrence of `c` (the fragments
between separators, like Python `str.split`). -/
def splitOnChar (c : Char) : List Char → List (List Char)
  | [] => [[]]
  | a :: as =>
    let r := splitOnChar c as
    if a == c then [] :: r
    else
      match r with
      | [] => [[a]]
      | g :: gs => (a :: g) :: gs

/-- One character of the regex class `[a-zA-Z0-9._%+-]`. -/
def isLocalChar (c : Char) : Bool :=
  c.isAlphanum || c == '.' || c == '_' || c == '%' || c == '+' || c == '-'

/-- One character of the regex class `[a-zA-Z0-9.-]`. -/
def isDomainChar (c : Char) : Bool := c.isAlphanum || c == '.' || c == '-'

/-- The helper `validate_email`, i.e. the anchored regex
`[a-zA-Z0-9._%+-]+ @ [a-zA-Z0-9.-]+ \. [a-zA-Z]X` with X meaning two or
more letters. Since `@` belongs to none of the three classes the string
must contain exactly one `@`, and since the final letter run contains no
dot, the dot of the regex is the last dot after the `@`; the regex
therefore matches exactly when the split below succeeds. -/
def validate_email (s : String) : Bool :=
  match splitOnChar '@' s.data with
  | [loc, dom] =>
    let rev := dom.reverse
    let tld := (rev.takeWhile (fun c => c != '.')).reverse
    let pre := (((rev.dropWhile (fun c => c != '.')).drop 1)).reverse
    !loc.isEmpty && loc.all isLocalChar &&
      !(rev.dropWhile (fun c => c != '.')).isEmpty &&
      !pre.isEmpty && pre.all isDomainChar &&
      decide (2 ≤ tld.length) && tld.all Char.isAlpha
  | _ => false

/-- `sanitize_input`: `strip`, then truncate to `maxLength`. The final
`bleach.clean` pass (an external HTML sanitiser) is the identity on
markup-free text and is modelled as the identity. -/
def sanitize_input (maxLength : Nat) (s : String) : String :=
  pyTake maxLength (pyStrip s)

/-! ## Token codec

The application mints and verifies its confirmation tokens with the
`itsdangerous` library (`URLSafeTimedSerializer`), which is not part of
the repository's own sources. Modelled from the spec: a token is a
signed capsule of payload + issuance timestamp, HMAC-signed under a
process-wide secret and namespaced by a purpose salt; the signature is
modelled as an ideal MAC (the authenticated data itself), so that
verification's recomputed-signature comparison succeeds exactly when
payload, purpose, issuance time and key are untampered. -/

/-- The payload `vote` serialises into the confirmation token. The
`option_id` form value is digit-checked by `vote`, so it is carried as
its numeric value. -/
structure TokenPayload where
  poll_id : String
  option_id : Nat
  email : String
  ip : String
  deriving Repr, DecidableEq

/-- Modelled from the spec: an ideal HMAC-style signature over
(key, payload, purpose, issuance time). -/
structure Sig where
  key : Nat
  payload : TokenPayload
  purpose : String
  issued : Int
  deriving Repr, DecidableEq

/-- A minted token: the transported payload and timestamp, plus the
signature over what was actually signed. -/
structure Token where
  payload : TokenPayload
  issued : Int
  sig : Sig
  deriving Repr, DecidableEq

/-- The two verification failures of the token codec. -/
inductive TokenErr where
  | Expired
  | Invalid
  deriving Repr, DecidableEq

/-- Modelled from the spec: `mint(payload, purpose)` at time `now`
(`serializer.dumps` with a purpose salt). -/
def mint (secret : Nat) (payload : TokenPayload) (purpose : String) (now : Int) : Token :=
  ⟨payload, now, ⟨secret, payload, purpose, now⟩⟩

/-- Modelled from the spec: `verify(token, purpose, max_age)`
(`serializer.loads` with salt and `max_age`): the signature is checked
against the received payload, the requested purpose and the received
timestamp; a mismatch is `Invalid`, and a good signature older than
`max_age` is `Expired`. -/
def verify (secret : Nat) (t : Token) (purpose : String) (max_age now : Int) :
    Except TokenErr TokenPayload :=
  if t.sig ≠ (⟨secret, t.payload, purpose, t.issued⟩ : Sig) then .error .Invalid
  else if max_age < now - t.issued then .error .Expired
  else .ok t.payload

/-- The purpose salt used for confirmation links. -/
def emailConfirmSalt : String := "email-confirm-v2"

instance {ε α : Type} [DecidableEq ε] [DecidableEq α] : DecidableEq (Except ε α) :=
  fun a b =>
    match a, b with
    | .error x, .error y =>
      if h : x = y then .isTrue (by rw [h]) else .isFalse (by simp [h])
    | .ok x, .ok y =>
      if h : x = y then .isTrue (by rw [h]) else .isFalse (by simp [h])
    | .error _, .ok _ => .isFalse (by simp)
    | .ok _, .error _ => .isFalse (by simp)

/-! ## Storage-layer operations -/

/-- The next AUTOINCREMENT value for a list of row ids. -/
def nextId (ids : List Nat) : Nat := ids.foldr max 0 + 1

/-- Next `votes.id`. -/
def nextVoteId (db : DB) : Nat := nextId (db.votes.map (fun v => v.id))

/-- Next `options.id`. -/
def nextOptionId (db : DB) : Nat := nextId (db.options.map (fun o => o.id))

/-- The row `confirm_vote` inserts for a confirmed ballot. -/
def newVoteRow (db : DB) (pid email : String) (oid : Nat) (ip : String) (now : Int) :
    VoteRow :=
  ⟨nextVoteId db, pid, email, oid, true, ip, now⟩

/-- `INSERT INTO votes (poll_id, email, option_id, confirmed, ip_address)
VALUES (?, ?, ?, 1, ?)` as executed by the storage engine: the
`UNIQUE(poll_id, email)` constraint and the two foreign keys
(`PRAGMA foreign_keys = ON`) are checked by sqlite itself, and a
violation raises `IntegrityError`, modelled as `.error`. -/
def insertVote (db : DB) (pid email : String) (oid : Nat) (ip : String) (now : Int) :
    Except Unit DB :=
  if db.votes.any (fun v => v.poll_id == pid && v.email == email) then .error ()
  else if !db.polls.any (fun p => p.id == pid) then .error ()
  else if !db.options.any (fun o => o.id == oid) then .error ()
  else .ok { db with votes := db.votes ++ [newVoteRow db pid email oid ip now] }

/-- `UPDATE options SET votes = votes + 1 WHERE id=?`. -/
def incOption (db : DB) (oid : Nat) : DB :=
  { db with
    options := db.options.map fun o =>
      if o.id == oid then { o with votes := o.votes + 1 } else o }

/-- The transactional insert-and-increment of `confirm_vote`: the INSERT
and the UPDATE commit together; if the INSERT raises `IntegrityError`
nothing is committed (the connection is closed without commit, rolling
the transaction back). -/
def commitVote (db : DB) (pid email : String) (oid : Nat) (ip : String) (now : Int) :
    Except Unit DB :=
  match insertVote db pid email oid ip now with
  | .error _ => .error ()
  | .ok db1 => .ok (incOption db1 oid)

/-- `SELECT * FROM polls WHERE id=?`. -/
def findPoll (db : DB) (pid : String) : Option PollRow :=
  db.polls.find? (fun p => p.id == pid)

/-- Vote count of the (first) option row with the given id. -/
def optVotes (db : DB) (oid : Nat) : Option Nat :=
  (db.options.find? (fun o => o.id == oid)).map (fun o => o.votes)

/-- Number of vote rows for a given (poll_id, email) pair. -/
def countVotes (db : DB) (pid email : String) : Nat :=
  (db.votes.filter (fun v => v.poll_id == pid && v.email == email)).length

/-! ## Handlers -/

/-- Outcomes of the `create_poll` handler (each is a distinct flash +
redirect in the source; `insertFailed` is the exception/rollback path,
reached e.g. when the generated id collides with an existing primary
key). -/
inductive CreateOutcome where
  | questionTooShort
  | tooFewOptions
  | tooManyOptions
  | duplicateOptions
  | insertFailed
  | created
  deriving Repr, DecidableEq

/-- The cleaned, length-valid submitted options: each raw option is
sanitised (`max_length=200`) and kept when nonempty of length at least
two. -/
def cleanOptions (raw : List String) : List String :=
  (raw.map (sanitize_input 200)).filter
    (fun o => !o.data.isEmpty && decide (2 ≤ o.length))

/-- Python `len(options) != len(set(options))`. -/
def hasDup (l : List String) : Bool := l.length != l.eraseDups.length

/-- The option rows inserted for a new poll, ids assigned in submission
order by AUTOINCREMENT, counters starting at the default 0. -/
def buildOptionRows (startId : Nat) (pid : String) : List String → List OptionRow
  | [] => []
  | t :: ts => ⟨startId, pid, t, 0⟩ :: buildOptionRows (startId + 1) pid ts

/-- The `create_poll` handler. The fresh identifier `uuid4().hex[:12]`
is passed in as `pid`; `now` is `datetime.now()`; the new poll gets the
schema defaults `is_active = 1`, `max_votes = 1000` and an expiry 30
days ahead (`timedelta(days=30)`, in seconds). -/
def create_poll (db : DB) (questionForm : Option String) (rawOptions : List String)
    (pid : String) (now : Int) : CreateOutcome × DB :=
  let question := sanitize_input 500 (questionForm.getD "")
  if question.data.isEmpty || decide (question.length < 10) then (.questionTooShort, db)
  else
    let options := cleanOptions rawOptions
    if decide (options.length < 2) then (.tooFewOptions, db)
    else if decide (10 < options.length) then (.tooManyOptions, db)
    else if hasDup options then (.duplicateOptions, db)
    else if db.polls.any (fun p => p.id == pid) then (.insertFailed, db)
    else
      (.created,
        { db with
          polls := db.polls ++ [⟨pid, question, now, true, 1000, some (now + 2592000)⟩],
          options := db.options ++ buildOptionRows (nextOptionId db) pid options })

/-- Outcomes of the `poll` view. -/
inductive PollViewOutcome where
  | malformedId
  | notFound
  | notActive
  | expiredPoll
  | showPoll
  deriving Repr, DecidableEq

/-- The `poll` view: identifier shape check before any lookup, then the
full lifecycle gate (`is_active`, then `datetime.now() > expire_date`). -/
def pollView (db : DB) (pid : String) (now : Int) : PollViewOutcome :=
  if !isHex12 pid then .malformedId
  else
    match findPoll db pid with
    | none => .notFound
    | some p =>
      if !p.is_active then .notActive
      else
        match p.expire_date with
        | some ed => if ed < now then .expiredPoll else .showPoll
        | none => .showPoll

/-- Outcomes of the `vote` handler (the source flashes the same
"This poll is not active" message whether the row is missing or
inactive, hence the single `pollNotActive` outcome). -/
inductive VoteOutcome where
  | invalidEmail
  | invalidOptionChoice
  | pollNotActive
  | invalidOption
  | alreadyVoted
  | deliveryFailed
  | emailSent
  deriving Repr, DecidableEq

/-- The `vote` handler. `deliveryOk` is the outcome of the external
`send_mailgun_email` capability; an exception there lands in the
`except` branch (`deliveryFailed`). Every branch returns the database
unchanged: the handler only issues SELECTs. On success it returns the
minted confirmation token. -/
def vote (db : DB) (pid : String) (emailForm optionForm : Option String)
    (remoteAddr : String) (secret : Nat) (now : Int) (deliveryOk : Bool) :
    VoteOutcome × DB × Option Token :=
  let email := pyLower (pyStrip (emailForm.getD ""))
  if email.data.isEmpty || !validate_email email then (.invalidEmail, db, none)
  else
    let optStr := (optionForm.getD "").data
    if !isDigitStr optStr then (.invalidOptionChoice, db, none)
    else
      let oid := parseNat optStr
      match findPoll db pid with
      | none => (.pollNotActive, db, none)
      | some p =>
        if !p.is_active then (.pollNotActive, db, none)
        else if !db.options.any (fun o => o.id == oid && o.poll_id == pid) then
          (.invalidOption, db, none)
        else if db.votes.any (fun v => v.poll_id == pid && v.email == email) then
          (.alreadyVoted, db, none)
        else
          let tok := mint secret ⟨pid, oid, email, remoteAddr⟩ emailConfirmSalt now
          if deliveryOk then (.emailSent, db, some tok)
          else (.deliveryFailed, db, none)

/-- Outcomes of the `confirm_vote` handler: the two token failures, the
pre-check duplicate ("already been confirmed"), the `IntegrityError`
duplicate ("already recorded"), and success. -/
inductive ConfirmOutcome where
  | expiredLink
  | invalidLink
  | alreadyConfirmed
  | alreadyRecorded
  | recorded
  deriving Repr, DecidableEq

/-- The user-facing outcome `confirm_vote` shows for each token
verification failure (`SignatureExpired` and `BadTimeSignature`
handlers). -/
def confirmErrOutcome : TokenErr → ConfirmOutcome
  | .Expired => .expiredLink
  | .Invalid => .invalidLink

/-- The `confirm_vote` handler: verify the token (salt
`email-confirm-v2`, `max_age=3600`), pre-check for an existing
(poll_id, email) vote, then transactionally insert the vote and
increment the option counter; a constraint violation at commit time is
caught as `IntegrityError` and surfaced as the benign duplicate
outcome, leaving the state unchanged. `ip` is the confirming request's
`remote_addr` (the token's stored ip is not used here). -/
def confirm_vote (db : DB) (secret : Nat) (tok : Token) (now : Int) (ip : String) :
    ConfirmOutcome × DB :=
  match verify secret tok emailConfirmSalt 3600 now with
  | .error .Expired => (.expiredLink, db)
  | .error .Invalid => (.invalidLink, db)
  | .ok data =>
    if db.votes.any (fun v => v.poll_id == data.poll_id && v.email == data.email) then
      (.alreadyConfirmed, db)
    else
      match commitVote db data.poll_id data.email data.option_id ip now with
      | .error _ => (.alreadyRecorded, db)
      | .ok db1 => (.recorded, db1)

/-- Outcomes of the `results` view. -/
inductive ResultsOutcome where
  | malformedId
  | notFound
  | shown (rows : List OptionRow) (total : Nat)
  deriving Repr, DecidableEq

/-- `ORDER BY votes DESC, id`. -/
def tallyOrder (a b : OptionRow) : Prop :=
  b.votes < a.votes ∨ (a.votes = b.votes ∧ a.id ≤ b.id)

instance : DecidableRel tallyOrder := fun a b => by
  unfold tallyOrder; infer_instance

/-- The `results` view: identifier shape check before any lookup, poll
lookup, then the poll's option rows ordered by `votes DESC, id`
together with the summed total. -/
def resultsView (db : DB) (pid : String) : ResultsOutcome :=
  if !isHex12 pid then .malformedId
  else
    match findPoll db pid with
    | none => .notFound
    | some _ =>
      let rows := List.insertionSort tallyOrder
        (db.options.filter (fun o => o.poll_id == pid))
      .shown rows (rows.foldr (fun o n => o.votes + n) 0)

/-! ## Traces of handler invocations -/

/-- One inbound request touching the poll store. -/
inductive Op where
  | createOp (questionForm : Option String) (rawOptions : List String)
      (pid : String) (now : Int)
  | voteOp (pid : String) (emailForm optionForm : Option String)
      (remoteAddr : String) (secret : Nat) (now : Int) (deliveryOk : Bool)
  | confirmOp (secret : Nat) (tok : Token) (now : Int) (ip : String)

/-- The database state after one request. -/
def applyOp (db : DB) : Op → DB
  | .createOp q raws pid now => (create_poll db q raws pid now).2
  | .voteOp pid e o ip secret now d => (vote db pid e o ip secret now d).2.1
  | .confirmOp secret tok now ip => (confirm_vote db secret tok now ip).2

/-- The database state after a sequence of requests. -/
def run (db : DB) : List Op → DB
  | [] => db
  | op :: ops => run (applyOp db op) ops

/-! ## Spec-level predicates -/

/-- The spec's poll lifecycle gate: votable iff active and not expired. -/
def pollVotable (p : PollRow) (now : Int) : Prop :=
  p.is_active = true ∧
    (p.expire_date = none ∨ ∃ ed, p.expire_date = some ed ∧ now ≤ ed)

instance (p : PollRow) (now : Int) : Decidable (pollVotable p now) := by
  unfold pollVotable; infer_instance

/-- At most one vote row per (poll_id, email) pair. -/
def votesUnique (db : DB) : Prop :=
  ∀ v1 ∈ db.votes, ∀ v2 ∈ db.votes,
    v1.poll_id = v2.poll_id → v1.email = v2.email → v1 = v2

/-- Option rows of a poll, keyed by (id, text): the data a tally must
preserve between creation and display. -/
def pollOptsKey (db : DB) (pid : String) : List (Nat × String) :=
  (db.options.filter (fun o => o.poll_id == pid)).map (fun o => (o.id, o.option_text))

/-! ## Concrete states used to instantiate the theorems -/

/-- An active poll that expired at time 100. -/
def exPoll : PollRow := ⟨"aaaaaaaaaaaa", "Best language", 0, true, 1000, some 100⟩

/-- A one-poll store with two options and no votes yet. -/
def exDb : DB :=
  ⟨[exPoll], [⟨1, "aaaaaaaaaaaa", "Go", 0⟩, ⟨2, "aaaaaaaaaaaa", "Rust", 0⟩], []⟩

/-- The same store after a confirmed vote by a@b.com. -/
def exVotedDb : DB :=
  { exDb with
    options := [⟨1, "aaaaaaaaaaaa", "Go", 1⟩, ⟨2, "aaaaaaaaaaaa", "Rust", 0⟩],
    votes := [⟨1, "aaaaaaaaaaaa", "a@b.com", 1, true, "9.9.9.9", 5⟩] }

/-- An inactive poll (lifecycle gate closed). -/
def exInactivePoll : PollRow := ⟨"bbbbbbbbbbbb", "Second question", 0, false, 1000, none⟩

/-- A store whose only poll is inactive. -/
def exInactiveDb : DB :=
  ⟨[exInactivePoll], [⟨1, "bbbbbbbbbbbb", "Yes", 0⟩, ⟨2, "bbbbbbbbbbbb", "No", 0⟩], []⟩

/-! ## Helper lemmas -/

theorem verify_mint_ok (secret : Nat) (payload : TokenPayload) (purpose : String)
    (t0 max_age now : Int) (h : now - t0 ≤ max_age) :
    verify secret (mint secret payload purpose t0) purpose max_age now = .ok payload := by
  have h2 : ¬ (max_age < now - t0) := by omega
  simp [verify, mint, h2]

theorem verify_mint_expired (secret : Nat) (payload : TokenPayload) (purpose : String)
    (t0 max_age now : Int) (h : max_age < now - t0) :
    verify secret (mint secret payload purpose t0) purpose max_age now = .error .Expired := by
  simp [verify, mint, h]

theorem confirm_vote_of_verify_error (db : DB) (secret : Nat) (tok : Token) (now : Int)
    (ip : String) (e : TokenErr) (h : verify secret tok emailConfirmSalt 3600 now = .error e) :
    confirm_vote db secret tok now ip = (confirmErrOutcome e, db) := by
  unfold confirm_vote
  rw [h]
  cases e <;> rfl

theorem vote_state_unchanged (db : DB) (pid : String) (emailForm optionForm : Option String)
    (ip : String) (secret : Nat) (now : Int) (deliveryOk : Bool) :
    (vote db pid emailForm optionForm ip secret now deliveryOk).2.1 = db := by
  simp only [vote]
  repeat' split
  all_goals rfl

theorem create_poll_votes_unchanged (db : DB) (q : Option String) (raws : List String)
    (pid : String) (now : Int) :
    ((create_poll db q raws pid now).2).votes = db.votes := by
  simp only [create_poll]
  repeat' split
  all_goals rfl

theorem insertVote_ok_elim {db : DB} {pid email : String} {oid : Nat} {ip : String}
    {now : Int} {db1 : DB} (h : insertVote db pid email oid ip now = .ok db1) :
    db.votes.any (fun v => v.poll_id == pid && v.email == email) = false ∧
    db1 = { db with votes := db.votes ++ [newVoteRow db pid email oid ip now] } := by
  unfold insertVote at h
  split at h
  · simp at h
  · split at h
    · simp at h
    · split at h
      · simp at h
      · rename_i h1 h2 h3
        refine ⟨by simpa using h1, ?_⟩
        injection h with h4
        exact h4.symm

theorem insertVote_dup (db : DB) (pid email : String) (oid : Nat) (ip : String) (now : Int)
    (hyes : db.votes.any (fun v => v.poll_id == pid && v.email == email) = true) :
    insertVote db pid email oid ip now = .error () := by
  unfold insertVote
  rw [if_pos hyes]

theorem commitVote_dup (db : DB) (pid email : String) (oid : Nat) (ip : String) (now : Int)
    (hyes : db.votes.any (fun v => v.poll_id == pid && v.email == email) = true) :
    commitVote db pid email oid ip now = .error () := by
  unfold commitVote
  rw [insertVote_dup db pid email oid ip now hyes]

theorem commitVote_ok_elim {db : DB} {pid email : String} {oid : Nat} {ip : String}
    {now : Int} {db1 : DB} (h : commitVote db pid email oid ip now = .ok db1) :
    ∃ db2, insertVote db pid email oid ip now = .ok db2 ∧ db1 = incOption db2 oid := by
  unfold commitVote at h
  split at h
  · simp at h
  · rename_i db2 heq
    injection h with h4
    exact ⟨db2, heq, h4.symm⟩

theorem find_map_inc (l : List OptionRow) (oid : Nat) :
    ((l.map fun o => if o.id == oid then { o with votes := o.votes + 1 } else o).find?
        (fun o => o.id == oid))
      = (l.find? (fun o => o.id == oid)).map (fun o => { o with votes := o.votes + 1 }) := by
  induction l with
  | nil => rfl
  | cons o l ih =>
    simp only [List.map_cons]
    by_cases h : o.id = oid
    · have h1 : (if o.id == oid then ({ o with votes := o.votes + 1 } : OptionRow) else o)
          = { o with votes := o.votes + 1 } := by simp [h]
      rw [h1, List.find?_cons_of_pos _ (by simp [h]),
        List.find?_cons_of_pos _ (by simp [h])]
      rfl
    · have h1 : (if o.id == oid then ({ o with votes := o.votes + 1 } : OptionRow) else o)
          = o := by simp [h]
      rw [h1, List.find?_cons_of_neg _ (by simp [h]),
        List.find?_cons_of_neg _ (by simp [h])]
      exact ih

theorem optVotes_incOption (db : DB) (oid : Nat) :
    optVotes (incOption db oid) oid = (optVotes db oid).map (fun n => n + 1) := by
  unfold optVotes incOption
  simp only []
  rw [find_map_inc]
  cases db.options.find? (fun o => o.id == oid) <;> rfl

theorem countVotes_append_match (db : DB) (pid email : String) (oid : Nat) (ip : String)
    (now : Int) :
    countVotes { db with votes := db.votes ++ [newVoteRow db pid email oid ip now] }
        pid email = countVotes db pid email + 1 := by
  unfold countVotes newVoteRow
  simp [List.filter_append]

theorem countVotes_zero (db : DB) (pid email : String)
    (hno : db.votes.any (fun v => v.poll_id == pid && v.email == email) = false) :
    countVotes db pid email = 0 := by
  unfold countVotes
  rw [List.length_eq_zero, List.filter_eq_nil_iff]
  intro v hv hpv
  have : db.votes.any (fun v => v.poll_id == pid && v.email == email) = true :=
    List.any_eq_true.mpr ⟨v, hv, hpv⟩
  rw [hno] at this
  exact Bool.false_ne_true this

theorem confirm_success (db : DB) (secret : Nat) (pid email ipT ip : String)
    (oid : Nat) (t0 now : Int)
    (hfresh : now - t0 ≤ 3600)
    (hpoll : db.polls.any (fun p => p.id == pid) = true)
    (hopt : db.options.any (fun o => o.id == oid) = true)
    (hno : db.votes.any (fun v => v.poll_id == pid && v.email == email) = false) :
    confirm_vote db secret (mint secret ⟨pid, oid, email, ipT⟩ emailConfirmSalt t0) now ip
      = (.recorded,
         incOption { db with votes := db.votes ++ [newVoteRow db pid email oid ip now] }
           oid) := by
  unfold confirm_vote commitVote insertVote
  rw [verify_mint_ok _ _ _ _ _ _ hfresh]
  simp [hno, hpoll, hopt]

theorem confirm_existing_pair (db : DB) (secret : Nat) (tok : Token) (now : Int)
    (ip : String) (data : TokenPayload)
    (hv : verify secret tok emailConfirmSalt 3600 now = .ok data)
    (hyes : db.votes.any
      (fun v => v.poll_id == data.poll_id && v.email == data.email) = true) :
    confirm_vote db secret tok now ip = (.alreadyConfirmed, db) := by
  unfold confirm_vote
  rw [hv]
  simp [hyes]

theorem confirm_vote_cases (db : DB) (secret : Nat) (tok : Token) (now : Int) (ip : String) :
    (confirm_vote db secret tok now ip).2 = db ∨
    ∃ (data : TokenPayload) (db2 : DB),
      insertVote db data.poll_id data.email data.option_id ip now = .ok db2 ∧
      (confirm_vote db secret tok now ip).2 = incOption db2 data.option_id := by
  unfold confirm_vote
  cases hv : verify secret tok emailConfirmSalt 3600 now with
  | error e => cases e <;> simp
  | ok data =>
    by_cases hex : (db.votes.any
        (fun v => v.poll_id == data.poll_id && v.email == data.email)) = true
    · simp [hex]
    · simp only [Bool.not_eq_true] at hex
      simp only [hex, Bool.false_eq_true, if_false]
      cases hc : commitVote db data.poll_id data.email data.option_id ip now with
      | error e => simp
      | ok db1 =>
        obtain ⟨db2, hins, rfl⟩ := commitVote_ok_elim hc
        exact Or.inr ⟨data, db2, hins, rfl⟩

theorem validate_email_nonempty {s : String} (h : validate_email s = true) :
    s.data.isEmpty = false := by
  cases hd : s.data with
  | nil =>
    unfold validate_email at h
    rw [hd] at h
    simp [splitOnChar] at h
  | cons c l => simp [hd]

theorem find?_any {α : Type} (pr : α → Bool) (l : List α) (a : α)
    (h : List.find? pr l = some a) : l.any pr = true := by
  induction l with
  | nil => simp [List.find?] at h
  | cons x xs ih =>
    cases hx : pr x with
    | true => simp [hx]
    | false =>
      rw [List.find?_cons_of_neg _ (by simp [hx])] at h
      simp [List.any_cons, hx, ih h]

theorem votesUnique_of_votes_eq {db1 db2 : DB} (h : db1.votes = db2.votes)
    (hu : votesUnique db2) : votesUnique db1 := by
  intro v1 h1 v2 h2
  rw [h] at h1 h2
  exact hu v1 h1 v2 h2

theorem votesUnique_insert {db db1 : DB} {pid email : String} {oid : Nat} {ip : String}
    {now : Int} (hu : votesUnique db)
    (h : insertVote db pid email oid ip now = .ok db1) : votesUnique db1 := by
  obtain ⟨hno, rfl⟩ := insertVote_ok_elim h
  have hnot : ∀ v ∈ db.votes, ¬(v.poll_id = pid ∧ v.email = email) := by
    intro v hv hc
    have : db.votes.any (fun v => v.poll_id == pid && v.email == email) = true :=
      List.any_eq_true.mpr ⟨v, hv, by simp [hc.1, hc.2]⟩
    rw [hno] at this
    exact Bool.false_ne_true this
  intro v1 h1 v2 h2 hp he
  simp only [List.mem_append, List.mem_singleton] at h1 h2
  rcases h1 with h1 | h1 <;> rcases h2 with h2 | h2
  · exact hu v1 h1 v2 h2 hp he
  · subst h2
    exact absurd ⟨by simpa [newVoteRow] using hp, by simpa [newVoteRow] using he⟩
      (hnot v1 h1)
  · subst h1
    exact absurd
      ⟨by simpa [newVoteRow] using hp.symm, by simpa [newVoteRow] using he.symm⟩
      (hnot v2 h2)
  · rw [h1, h2]

theorem applyOp_preserves_unique {db : DB} (op : Op) (hu : votesUnique db) :
    votesUnique (applyOp db op) := by
  cases op with
  | createOp q raws pid now =>
    exact votesUnique_of_votes_eq (create_poll_votes_unchanged db q raws pid now) hu
  | voteOp pid e o ip secret now d =>
    show votesUnique (vote db pid e o ip secret now d).2.1
    rw [vote_state_unchanged]
    exact hu
  | confirmOp secret tok now ip =>
    show votesUnique (confirm_vote db secret tok now ip).2
    rcases confirm_vote_cases db secret tok now ip with h | ⟨data, db2, hins, h⟩
    · rw [h]; exact hu
    · rw [h]
      exact votesUnique_of_votes_eq
        (show (incOption db2 data.option_id).votes = db2.votes from rfl)
        (votesUnique_insert hu hins)

theorem run_preserves_unique (ops : List Op) :
    ∀ db : DB, votesUnique db → votesUnique (run db ops) := by
  induction ops with
  | nil => exact fun db h => h
  | cons op ops ih => exact fun db h => ih _ (applyOp_preserves_unique op h)

theorem initDB_unique : votesUnique initDB := by
  intro v1 h1
  simp [initDB] at h1

/-! ## Claims about vote uniqueness and confirmation -/

/-- C1: every database state reachable from the initialised store has at
most one Vote row per (poll_id, email) pair; the uniqueness is enforced
by the storage layer itself — the INSERT, and hence the whole commit,
fails with IntegrityError whenever a row for the pair already exists,
independent of any application-level pre-check — and a second
confirmation attempt for an already-voted pair surfaces the
already-voted outcome as a first-class result while leaving the store,
in particular the existing Vote row, unchanged. -/
theorem vote_pair_uniqueness_storage_enforced :
    (∀ ops : List Op, votesUnique (run initDB ops)) ∧
    (∀ (db : DB) (pid email : String) (oid : Nat) (ip : String) (now : Int),
      db.votes.any (fun v => v.poll_id == pid && v.email == email) = true →
      insertVote db pid email oid ip now = .error () ∧
      commitVote db pid email oid ip now = .error ()) ∧
    (∀ (db : DB) (secret : Nat) (tok : Token) (now : Int) (ip : String)
        (data : TokenPayload),
      verify secret tok emailConfirmSalt 3600 now = .ok data →
      db.votes.any (fun v => v.poll_id == data.poll_id && v.email == data.email) = true →
      confirm_vote db secret tok now ip = (.alreadyConfirmed, db)) :=
  ⟨fun ops => run_preserves_unique ops initDB initDB_unique,
   fun db pid email oid ip now h =>
     ⟨insertVote_dup db pid email oid ip now h, commitVote_dup db pid email oid ip now h⟩,
   fun db secret tok now ip data hv hy =>
     confirm_existing_pair db secret tok now ip data hv hy⟩

/-- Witness for C1 on the concrete voted store: a second insert for the
(poll, email) pair fails at the storage layer, and a second confirmation
of a valid token for the pair reports the duplicate outcome with the
store unchanged. -/
theorem vote_pair_uniqueness_storage_enforced_witness :
    insertVote exVotedDb "aaaaaaaaaaaa" "a@b.com" 2 "ip" 9 = .error () ∧
    commitVote exVotedDb "aaaaaaaaaaaa" "a@b.com" 2 "ip" 9 = .error () ∧
    confirm_vote exVotedDb 7 (mint 7 ⟨"aaaaaaaaaaaa", 1, "a@b.com", "x"⟩ emailConfirmSalt 0)
        100 "ip" = (.alreadyConfirmed, exVotedDb) :=
  ⟨(vote_pair_uniqueness_storage_enforced.2.1 exVotedDb "aaaaaaaaaaaa" "a@b.com" 2 "ip" 9
      (by decide)).1,
   (vote_pair_uniqueness_storage_enforced.2.1 exVotedDb "aaaaaaaaaaaa" "a@b.com" 2 "ip" 9
      (by decide)).2,
   vote_pair_uniqueness_storage_enforced.2.2 exVotedDb 7
      (mint 7 ⟨"aaaaaaaaaaaa", 1, "a@b.com", "x"⟩ emailConfirmSalt 0) 100 "ip"
      ⟨"aaaaaaaaaaaa", 1, "a@b.com", "x"⟩ (by decide) (by decide)⟩

/-- C2: confirming the same valid token twice: the first confirmation
records the vote (exactly one Vote row for the pair ends up persisted)
and increments the chosen option's counter by exactly one; the second
confirmation of the very same token reports the already-confirmed
duplicate outcome and leaves the store unchanged — the counter is never
incremented a second time. -/
theorem confirm_same_token_twice (db : DB) (secret : Nat)
    (pid email ipT ip ip2 : String) (oid : Nat) (t0 now now2 : Int)
    (hfresh : now - t0 ≤ 3600) (hfresh2 : now2 - t0 ≤ 3600)
    (hpoll : db.polls.any (fun p => p.id == pid) = true)
    (hopt : db.options.any (fun o => o.id == oid) = true)
    (hno : db.votes.any (fun v => v.poll_id == pid && v.email == email) = false) :
    (confirm_vote db secret (mint secret ⟨pid, oid, email, ipT⟩ emailConfirmSalt t0)
        now ip).1 = .recorded ∧
    countVotes (confirm_vote db secret
        (mint secret ⟨pid, oid, email, ipT⟩ emailConfirmSalt t0) now ip).2 pid email = 1 ∧
    optVotes (confirm_vote db secret
        (mint secret ⟨pid, oid, email, ipT⟩ emailConfirmSalt t0) now ip).2 oid
      = (optVotes db oid).map (fun n => n + 1) ∧
    confirm_vote (confirm_vote db secret
        (mint secret ⟨pid, oid, email, ipT⟩ emailConfirmSalt t0) now ip).2 secret
        (mint secret ⟨pid, oid, email, ipT⟩ emailConfirmSalt t0) now2 ip2
      = (.alreadyConfirmed,
         (confirm_vote db secret
           (mint secret ⟨pid, oid, email, ipT⟩ emailConfirmSalt t0) now ip).2) := by
  have hs := confirm_success db secret pid email ipT ip oid t0 now hfresh hpoll hopt hno
  rw [hs]
  refine ⟨rfl, ?_, ?_, ?_⟩
  · have h1 : countVotes (incOption
        { db with votes := db.votes ++ [newVoteRow db pid email oid ip now] } oid) pid email
        = countVotes
          { db with votes := db.votes ++ [newVoteRow db pid email oid ip now] } pid email :=
      rfl
    rw [h1, countVotes_append_match, countVotes_zero db pid email hno]
  · have h2 : optVotes
        { db with votes := db.votes ++ [newVoteRow db pid email oid ip now] } oid
        = optVotes db oid := rfl
    rw [optVotes_incOption, h2]
  · apply confirm_existing_pair _ secret _ now2 ip2 ⟨pid, oid, email, ipT⟩
    · exact verify_mint_ok secret ⟨pid, oid, email, ipT⟩ emailConfirmSalt t0 3600 now2
        hfresh2
    · apply List.any_eq_true.mpr
      refine ⟨newVoteRow db pid email oid ip now, ?_, by simp [newVoteRow]⟩
      show _ ∈ (db.votes ++ [newVoteRow db pid email oid ip now])
      simp

/-- Witness for C2 on the concrete store: the first confirmation records
the vote and bumps the Go counter from 0 to 1; the second reports the
duplicate and changes nothing. -/
theorem confirm_same_token_twice_witness :
    (confirm_vote exDb 7 (mint 7 ⟨"aaaaaaaaaaaa", 1, "a@b.com", "x"⟩ emailConfirmSalt 0)
        100 "9.9.9.9").1 = .recorded ∧
    countVotes (confirm_vote exDb 7
        (mint 7 ⟨"aaaaaaaaaaaa", 1, "a@b.com", "x"⟩ emailConfirmSalt 0) 100 "9.9.9.9").2
        "aaaaaaaaaaaa" "a@b.com" = 1 ∧
    optVotes (confirm_vote exDb 7
        (mint 7 ⟨"aaaaaaaaaaaa", 1, "a@b.com", "x"⟩ emailConfirmSalt 0) 100 "9.9.9.9").2 1
      = (optVotes exDb 1).map (fun n => n + 1) ∧
    confirm_vote (confirm_vote exDb 7
        (mint 7 ⟨"aaaaaaaaaaaa", 1, "a@b.com", "x"⟩ emailConfirmSalt 0) 100 "9.9.9.9").2 7
        (mint 7 ⟨"aaaaaaaaaaaa", 1, "a@b.com", "x"⟩ emailConfirmSalt 0) 200 "8.8.8.8"
      = (.alreadyConfirmed,
         (confirm_vote exDb 7
           (mint 7 ⟨"aaaaaaaaaaaa", 1, "a@b.com", "x"⟩ emailConfirmSalt 0) 100
           "9.9.9.9").2) :=
  confirm_same_token_twice exDb 7 "aaaaaaaaaaaa" "a@b.com" "x" "9.9.9.9" "8.8.8.8" 1 0 100
    200 (by decide) (by decide) (by decide) (by decide) (by decide)

/-- C10: confirm_vote never consults the poll lifecycle gate: a fresh,
genuinely minted token whose (poll_id, email) pair has no existing Vote
is committed — Vote row inserted, option counter incremented — even
though the poll is not votable (inactive or expired) at confirmation
time; the only facts about the polls table the outcome depends on are
the storage engine's foreign keys (the poll row exists). -/
theorem confirm_ignores_poll_gate (db : DB) (secret : Nat)
    (pid email ipT ip : String) (oid : Nat) (t0 now : Int) (p : PollRow)
    (hfresh : now - t0 ≤ 3600)
    (hp : findPoll db pid = some p)
    (_hgate : ¬ pollVotable p now)
    (hopt : db.options.any (fun o => o.id == oid) = true)
    (hno : db.votes.any (fun v => v.poll_id == pid && v.email == email) = false) :
    (confirm_vote db secret (mint secret ⟨pid, oid, email, ipT⟩ emailConfirmSalt t0)
        now ip).1 = .recorded ∧
    (confirm_vote db secret (mint secret ⟨pid, oid, email, ipT⟩ emailConfirmSalt t0)
        now ip).2.votes = db.votes ++ [newVoteRow db pid email oid ip now] ∧
    optVotes (confirm_vote db secret
        (mint secret ⟨pid, oid, email, ipT⟩ emailConfirmSalt t0) now ip).2 oid
      = (optVotes db oid).map (fun n => n + 1) := by
  have hp2 : List.find? (fun q => q.id == pid) db.polls = some p := hp
  have hpoll : db.polls.any (fun q => q.id == pid) = true :=
    find?_any (fun q => q.id == pid) db.polls p hp2
  have hs := confirm_success db secret pid email ipT ip oid t0 now hfresh hpoll hopt hno
  rw [hs]
  refine ⟨rfl, rfl, ?_⟩
  have h2 : optVotes
      { db with votes := db.votes ++ [newVoteRow db pid email oid ip now] } oid
      = optVotes db oid := rfl
  rw [optVotes_incOption, h2]

/-- Witness for C10: on the store whose only poll is inactive, a fresh
valid token is still committed and the counter incremented. -/
theorem confirm_ignores_poll_gate_witness :
    (confirm_vote exInactiveDb 7
        (mint 7 ⟨"bbbbbbbbbbbb", 1, "c@d.com", "x"⟩ emailConfirmSalt 0) 100 "ip").1
      = .recorded ∧
    (confirm_vote exInactiveDb 7
        (mint 7 ⟨"bbbbbbbbbbbb", 1, "c@d.com", "x"⟩ emailConfirmSalt 0) 100 "ip").2.votes
      = exInactiveDb.votes ++ [newVoteRow exInactiveDb "bbbbbbbbbbbb" "c@d.com" 1 "ip" 100] ∧
    optVotes (confirm_vote exInactiveDb 7
        (mint 7 ⟨"bbbbbbbbbbbb", 1, "c@d.com", "x"⟩ emailConfirmSalt 0) 100 "ip").2 1
      = (optVotes exInactiveDb 1).map (fun n => n + 1) :=
  confirm_ignores_poll_gate exInactiveDb 7 "bbbbbbbbbbbb" "c@d.com" "x" "ip" 1 0 100
    exInactivePoll (by decide) (by decide) (by decide) (by decide) (by decide)

/-- C9: the vote handler performs no durable write on any path — for
every input and outcome the resulting poll store equals the input store
(the external rate-guard's counters are outside the modelled store) —
and when every validation step passes but the email delivery capability
fails, the surfaced outcome is deliveryFailed. -/
theorem vote_delivery_failed_no_write (db : DB) (pid : String)
    (emailForm optionForm : Option String) (ip : String) (secret : Nat) (now : Int)
    (deliveryOk : Bool) :
    (vote db pid emailForm optionForm ip secret now deliveryOk).2.1 = db ∧
    (validate_email (pyLower (pyStrip (emailForm.getD ""))) = true →
     isDigitStr (optionForm.getD "").data = true →
     (∃ p, findPoll db pid = some p ∧ p.is_active = true) →
     db.options.any
        (fun o => o.id == parseNat (optionForm.getD "").data && o.poll_id == pid) = true →
     db.votes.any
        (fun v => v.poll_id == pid &&
          v.email == pyLower (pyStrip (emailForm.getD ""))) = false →
     deliveryOk = false →
     (vote db pid emailForm optionForm ip secret now deliveryOk).1 = .deliveryFailed) := by
  refine ⟨vote_state_unchanged db pid emailForm optionForm ip secret now deliveryOk, ?_⟩
  rintro hem hod ⟨p, hp, hact⟩ hopt hno rfl
  have hne := validate_email_nonempty hem
  simp [vote, hne, hem, hod, hp, hact, hopt, hno]

/-- Witness for C9: on the concrete store, a fully valid submission with
a failing delivery capability reports deliveryFailed and leaves the
store untouched. -/
theorem vote_delivery_failed_no_write_witness :
    (vote exDb "aaaaaaaaaaaa" (some "a@b.com") (some "1") "ip" 7 50 false).2.1 = exDb ∧
    (vote exDb "aaaaaaaaaaaa" (some "a@b.com") (some "1") "ip" 7 50 false).1
      = .deliveryFailed :=
  ⟨(vote_delivery_failed_no_write exDb "aaaaaaaaaaaa" (some "a@b.com") (some "1") "ip" 7 50
      false).1,
   (vote_delivery_failed_no_write exDb "aaaaaaaaaaaa" (some "a@b.com") (some "1") "ip" 7 50
      false).2 (by decide) (by decide) ⟨exPoll, by decide, by decide⟩ (by decide) (by decide)
      rfl⟩

/-! ## Claims about the lifecycle gate and identifier shape -/

/-- C3 is refuted: the vote handler does not enforce the expiry half of
the lifecycle gate. On this concrete store the poll is active but
expired at submission time (now = 200 > expire_date = 100), so it is not
votable, yet the vote handler accepts the submission and sends the
confirmation email instead of rejecting it as not votable. -/
theorem vote_accepts_expired_poll :
    ¬ pollVotable exPoll 200 ∧
    findPoll exDb "aaaaaaaaaaaa" = some exPoll ∧
    (vote exDb "aaaaaaaaaaaa" (some "a@b.com") (some "1") "ip" 7 200 true).1
      = .emailSent :=
  ⟨by decide, by decide, by decide⟩

/-- C3 amended: a poll is votable only if active and (no expiry or
now ≤ expire_date), and the poll view enforces this full gate (it shows
the poll exactly when the gate is open); the vote handler independently
enforces only the missing/inactive part: given well-formed email and
option inputs, it rejects with the not-active outcome exactly when the
poll row is missing or inactive — an active-but-expired poll is not
rejected at submission time. -/
theorem poll_gate_enforcement (db : DB) (pid : String) (now : Int)
    (emailForm optionForm : Option String) (ip : String) (secret : Nat)
    (deliveryOk : Bool)
    (hem : validate_email (pyLower (pyStrip (emailForm.getD ""))) = true)
    (hod : isDigitStr (optionForm.getD "").data = true) :
    (∀ p : PollRow, isHex12 pid = true → findPoll db pid = some p →
      (pollView db pid now = .showPoll ↔ pollVotable p now)) ∧
    ((vote db pid emailForm optionForm ip secret now deliveryOk).1 = .pollNotActive ↔
      (findPoll db pid = none ∨
        ∃ p, findPoll db pid = some p ∧ p.is_active = false)) := by
  have hne := validate_email_nonempty hem
  constructor
  · intro p hhex hp
    cases hact : p.is_active with
    | false => simp [pollView, hhex, hp, hact, pollVotable]
    | true =>
      cases hed : p.expire_date with
      | none => simp [pollView, hhex, hp, hact, hed, pollVotable]
      | some ed =>
        by_cases hlt : ed < now
        · simp [pollView, hhex, hp, hact, hed, pollVotable, hlt]
        · simp [pollView, hhex, hp, hact, hed, pollVotable, hlt]
          omega
  · cases hp : findPoll db pid with
    | none => simp [vote, hne, hem, hod, hp]
    | some p =>
      cases hact : p.is_active with
      | false => simp [vote, hne, hem, hod, hp, hact]
      | true =>
        constructor
        · intro hout
          exfalso
          revert hout
          simp only [vote, hne, hem, hod, hp, hact]
          simp only [Bool.or_false, Bool.not_true, Bool.not_false, List.isEmpty_eq_true]
          repeat' split
          all_goals simp
        · intro hrhs
          rcases hrhs with hnone | ⟨q, hq, hqa⟩
          · exact absurd hnone (by simp)
          · injection hq with hq
            subst hq
            rw [hact] at hqa
            exact absurd hqa (by simp)

/-- Witness for the C3 amended theorem: on the concrete store the poll
view shows the active, unexpired poll, and a vote for the same poll at
that time is not rejected as not-active (the iff holds with both sides
false). -/
theorem poll_gate_enforcement_witness :
    (pollView exDb "aaaaaaaaaaaa" 50 = .showPoll ↔ pollVotable exPoll 50) ∧
    ((vote exDb "aaaaaaaaaaaa" (some "a@b.com") (some "1") "ip" 7 50 true).1
        = .pollNotActive ↔
      (findPoll exDb "aaaaaaaaaaaa" = none ∨
        ∃ p, findPoll exDb "aaaaaaaaaaaa" = some p ∧ p.is_active = false)) :=
  ⟨(poll_gate_enforcement exDb "aaaaaaaaaaaa" 50 (some "a@b.com") (some "1") "ip" 7 true
      (by decide) (by decide)).1 exPoll (by decide) (by decide),
   (poll_gate_enforcement exDb "aaaaaaaaaaaa" 50 (some "a@b.com") (some "1") "ip" 7 true
      (by decide) (by decide)).2⟩

/-- C6 is refuted for the vote handler: a poll identifier that is not a
12-character lowercase-hex string is not rejected with a distinct
malformed-id outcome before lookup; the vote handler has no shape check
at all, performs the poll lookup, and reports exactly the same
not-active outcome as a well-formed but absent identifier. -/
theorem vote_malformed_id_not_distinct :
    isHex12 "zz" = false ∧
    (vote exDb "zz" (some "a@b.com") (some "1") "ip" 7 50 true).1 = .pollNotActive ∧
    isHex12 "cccccccccccc" = true ∧
    (vote exDb "cccccccccccc" (some "a@b.com") (some "1") "ip" 7 50 true).1
      = .pollNotActive :=
  ⟨by decide, by decide, by decide, by decide⟩

/-- C6 amended: the identifier shape check (12 lowercase-hex characters)
is enforced before any lookup by the poll view and the results view —
for every store state a malformed identifier yields the malformed-id
outcome, distinct from the not-found outcome — but not by the vote
handler, which performs no shape check and reports a missing poll (as it
would after lookup) with its generic not-active outcome. -/
theorem malformed_id_check_views_only (db : DB) (pid : String) (now : Int)
    (h : isHex12 pid = false) :
    pollView db pid now = .malformedId ∧
    resultsView db pid = .malformedId ∧
    PollViewOutcome.malformedId ≠ PollViewOutcome.notFound ∧
    ResultsOutcome.malformedId ≠ ResultsOutcome.notFound ∧
    (∀ emailForm optionForm ip secret deliveryOk,
      validate_email (pyLower (pyStrip (emailForm.getD ""))) = true →
      isDigitStr (optionForm.getD "").data = true →
      findPoll db pid = none →
      (vote db pid emailForm optionForm ip secret now deliveryOk).1 = .pollNotActive) := by
  refine ⟨by simp [pollView, h], by simp [resultsView, h], by simp, by simp, ?_⟩
  intro emailForm optionForm ip secret deliveryOk hem hod hp
  have hne := validate_email_nonempty hem
  simp [vote, hne, hem, hod, hp]

/-- Witness for the C6 amended theorem at the malformed identifier
"zz" on the concrete store. -/
theorem malformed_id_check_views_only_witness :
    pollView exDb "zz" 50 = .malformedId ∧
    resultsView exDb "zz" = .malformedId ∧
    (vote exDb "zz" (some "a@b.com") (some "1") "ip" 7 50 true).1 = .pollNotActive :=
  ⟨(malformed_id_check_views_only exDb "zz" 50 (by decide)).1,
   (malformed_id_check_views_only exDb "zz" 50 (by decide)).2.1,
   (malformed_id_check_views_only exDb "zz" 50 (by decide)).2.2.2.2 (some "a@b.com")
     (some "1") "ip" 7 true (by decide) (by decide) (by decide)⟩

/-! ## Claims about the token codec -/

/-- C4: verifying a token minted for purpose p against the same purpose p
and a max age returns the original payload when performed at or before
expiry (now - issuance ≤ max_age), and the Expired error once max_age
has elapsed (now - issuance > max_age). -/
theorem token_roundtrip (secret : Nat) (payload : TokenPayload) (purpose : String)
    (t0 max_age now : Int) :
    (now - t0 ≤ max_age →
      verify secret (mint secret payload purpose t0) purpose max_age now = .ok payload) ∧
    (max_age < now - t0 →
      verify secret (mint secret payload purpose t0) purpose max_age now = .error .Expired) :=
  ⟨verify_mint_ok secret payload purpose t0 max_age now,
   verify_mint_expired secret payload purpose t0 max_age now⟩

/-- Witness for C4 at a concrete payload: fresh at age 5 of 10, expired
at age 20 of 10. -/
theorem token_roundtrip_witness :
    verify 7 (mint 7 ⟨"aaaaaaaaaaaa", 1, "a@b.com", "ip"⟩ "p" 0) "p" 10 5
        = .ok ⟨"aaaaaaaaaaaa", 1, "a@b.com", "ip"⟩ ∧
    verify 7 (mint 7 ⟨"aaaaaaaaaaaa", 1, "a@b.com", "ip"⟩ "p" 0) "p" 10 20
        = .error .Expired :=
  ⟨(token_roundtrip 7 ⟨"aaaaaaaaaaaa", 1, "a@b.com", "ip"⟩ "p" 0 10 5).1 (by decide),
   (token_roundtrip 7 ⟨"aaaaaaaaaaaa", 1, "a@b.com", "ip"⟩ "p" 0 10 20).2 (by decide)⟩

/-- C5: verification failures are exactly the two outcomes Expired (a
genuinely signed token older than max_age) and Invalid (a token whose
payload was altered, or one minted under a different purpose); the two
outcomes are distinct, and confirm_vote maps every verification failure
to the corresponding user-facing outcome, leaving the store unchanged
(no Vote row is created). -/
theorem token_failures_two_outcomes (secret : Nat) :
    (∀ (payload : TokenPayload) (purpose : String) (t0 max_age now : Int),
      max_age < now - t0 →
      verify secret (mint secret payload purpose t0) purpose max_age now
        = .error .Expired) ∧
    (∀ (payload payload2 : TokenPayload) (purpose : String) (t0 max_age now : Int),
      payload2 ≠ payload →
      verify secret { mint secret payload purpose t0 with payload := payload2 }
          purpose max_age now = .error .Invalid) ∧
    (∀ (payload : TokenPayload) (purpose purpose2 : String) (t0 max_age now : Int),
      purpose2 ≠ purpose →
      verify secret (mint secret payload purpose t0) purpose2 max_age now
        = .error .Invalid) ∧
    (ConfirmOutcome.expiredLink ≠ ConfirmOutcome.invalidLink) ∧
    (∀ (db : DB) (tok : Token) (now : Int) (ip : String) (e : TokenErr),
      verify secret tok emailConfirmSalt 3600 now = .error e →
      confirm_vote db secret tok now ip = (confirmErrOutcome e, db)) := by
  refine ⟨fun payload purpose t0 max_age now h => verify_mint_expired _ _ _ _ _ _ h,
    fun payload payload2 purpose t0 max_age now h => ?_,
    fun payload purpose purpose2 t0 max_age now h => ?_,
    by simp,
    fun db tok now ip e h => confirm_vote_of_verify_error db secret tok now ip e h⟩
  · unfold verify
    rw [if_pos (fun heq => h (congrArg Sig.payload heq).symm)]
  · unfold verify
    rw [if_pos (fun heq => h (congrArg Sig.purpose heq).symm)]

/-- Witness for C5: an expired genuine token, a one-field-altered
payload, a wrong-purpose token, and the two confirm_vote mappings on a
concrete store. -/
theorem token_failures_two_outcomes_witness :
    verify 7 (mint 7 ⟨"aaaaaaaaaaaa", 1, "a@b.com", "ip"⟩ "p" 0) "p" 10 20
        = .error .Expired ∧
    verify 7 { mint 7 ⟨"aaaaaaaaaaaa", 1, "a@b.com", "ip"⟩ "p" 0 with
                 payload := ⟨"aaaaaaaaaaaa", 2, "a@b.com", "ip"⟩ } "p" 10 5
        = .error .Invalid ∧
    verify 7 (mint 7 ⟨"aaaaaaaaaaaa", 1, "a@b.com", "ip"⟩ "p" 0) "q" 10 5
        = .error .Invalid ∧
    confirm_vote exDb 7 (mint 7 ⟨"aaaaaaaaaaaa", 1, "a@b.com", "ip"⟩ emailConfirmSalt 0)
        9999 "ip" = (confirmErrOutcome .Expired, exDb) :=
  ⟨(token_failures_two_outcomes 7).1 ⟨"aaaaaaaaaaaa", 1, "a@b.com", "ip"⟩ "p" 0 10 20
      (by decide),
   (token_failures_two_outcomes 7).2.1 ⟨"aaaaaaaaaaaa", 1, "a@b.com", "ip"⟩
      ⟨"aaaaaaaaaaaa", 2, "a@b.com", "ip"⟩ "p" 0 10 5 (by decide),
   (token_failures_two_outcomes 7).2.2.1 ⟨"aaaaaaaaaaaa", 1, "a@b.com", "ip"⟩ "p" "q" 0 10 5
      (by decide),
   (token_failures_two_outcomes 7).2.2.2.2 exDb
      (mint 7 ⟨"aaaaaaaaaaaa", 1, "a@b.com", "ip"⟩ emailConfirmSalt 0) 9999 "ip" .Expired
      (by decide)⟩

theorem buildOptionRows_length (startId : Nat) (pid : String) (ts : List String) :
    (buildOptionRows startId pid ts).length = ts.length := by
  induction ts generalizing startId with
  | nil => rfl
  | cons t ts ih => simp [buildOptionRows, ih]

theorem buildOptionRows_filter_self (startId : Nat) (pid : String) (ts : List String) :
    (buildOptionRows startId pid ts).filter (fun o => o.poll_id == pid)
      = buildOptionRows startId pid ts := by
  induction ts generalizing startId with
  | nil => rfl
  | cons t ts ih => simp [buildOptionRows, List.filter_cons, ih]

theorem buildOptionRows_filter_ne (startId : Nat) (pid pid2 : String) (ts : List String)
    (h : pid2 ≠ pid) :
    (buildOptionRows startId pid2 ts).filter (fun o => o.poll_id == pid) = [] := by
  induction ts generalizing startId with
  | nil => rfl
  | cons t ts ih => simp [buildOptionRows, List.filter_cons, h, ih]

theorem create_poll_created {db : DB} {q : Option String} {raws : List String}
    {pid : String} {now : Int} {db1 : DB}
    (h : create_poll db q raws pid now = (.created, db1)) :
    hasDup (cleanOptions raws) = false ∧
    db.polls.any (fun p => p.id == pid) = false ∧
    db1.polls = db.polls ++
      [⟨pid, sanitize_input 500 (q.getD ""), now, true, 1000, some (now + 2592000)⟩] ∧
    db1.options = db.options ++ buildOptionRows (nextOptionId db) pid (cleanOptions raws)
    := by
  simp only [create_poll] at h
  split at h
  · simp at h
  · split at h
    · simp at h
    · split at h
      · simp at h
      · split at h
        · simp at h
        · split at h
          · simp at h
          · rename_i h1 h2 h3 h4 h5
            simp only [Prod.mk.injEq] at h
            obtain ⟨-, hdb⟩ := h
            subst hdb
            exact ⟨by simpa using h4, by simpa using h5, rfl, rfl⟩

theorem create_poll_cases (db : DB) (q : Option String) (raws : List String)
    (pid : String) (now : Int) :
    (create_poll db q raws pid now).2 = db ∨
    (db.polls.any (fun p => p.id == pid) = false ∧
     (create_poll db q raws pid now).2 = { db with
        polls := db.polls ++ [⟨pid, sanitize_input 500 (q.getD ""), now, true, 1000,
          some (now + 2592000)⟩],
        options := db.options ++ buildOptionRows (nextOptionId db) pid
          (cleanOptions raws) }) := by
  simp only [create_poll]
  split
  · exact Or.inl rfl
  · split
    · exact Or.inl rfl
    · split
      · exact Or.inl rfl
      · split
        · exact Or.inl rfl
        · split
          · exact Or.inl rfl
          · rename_i h1 h2 h3 h4 h5
            exact Or.inr ⟨by simpa using h5, rfl⟩

theorem filter_map_inc (l : List OptionRow) (oid : Nat) (pid : String) :
    (((l.map fun o => if o.id == oid then { o with votes := o.votes + 1 } else o).filter
        (fun o => o.poll_id == pid)).map (fun o => (o.id, o.option_text)))
      = ((l.filter (fun o => o.poll_id == pid)).map (fun o => (o.id, o.option_text))) := by
  induction l with
  | nil => rfl
  | cons o l ih =>
    simp only [List.map_cons]
    cases hid : o.id == oid with
    | true =>
      rw [if_pos rfl]
      by_cases hpid : o.poll_id = pid
      · rw [List.filter_cons_of_pos (by simp [hpid]),
          List.filter_cons_of_pos (by simp [hpid])]
        simp only [List.map_cons]
        rw [ih]
      · rw [List.filter_cons_of_neg (by simp [hpid]),
          List.filter_cons_of_neg (by simp [hpid])]
        exact ih
    | false =>
      rw [if_neg (by simp)]
      by_cases hpid : o.poll_id = pid
      · rw [List.filter_cons_of_pos (by simp [hpid]),
          List.filter_cons_of_pos (by simp [hpid])]
        simp only [List.map_cons]
        rw [ih]
      · rw [List.filter_cons_of_neg (by simp [hpid]),
          List.filter_cons_of_neg (by simp [hpid])]
        exact ih

theorem applyOp_pollKey {db : DB} {pid : String} (op : Op)
    (hpoll : db.polls.any (fun p => p.id == pid) = true) :
    (applyOp db op).polls.any (fun p => p.id == pid) = true ∧
    pollOptsKey (applyOp db op) pid = pollOptsKey db pid := by
  cases op with
  | voteOp pid2 e o2 ip secret now d =>
    simp only [applyOp]
    rw [vote_state_unchanged]
    exact ⟨hpoll, rfl⟩
  | confirmOp secret tok now ip =>
    simp only [applyOp]
    rcases confirm_vote_cases db secret tok now ip with h | ⟨data, db2, hins, h⟩
    · rw [h]
      exact ⟨hpoll, rfl⟩
    · obtain ⟨hno, hdb2⟩ := insertVote_ok_elim hins
      subst hdb2
      rw [h]
      refine ⟨hpoll, ?_⟩
      unfold pollOptsKey incOption
      exact filter_map_inc db.options data.option_id pid
  | createOp q2 raws2 pid2 now2 =>
    simp only [applyOp]
    rcases create_poll_cases db q2 raws2 pid2 now2 with h | ⟨hfresh, h⟩
    · rw [h]
      exact ⟨hpoll, rfl⟩
    · rw [h]
      have hne : pid2 ≠ pid := by
        intro he
        rw [he] at hfresh
        rw [hpoll] at hfresh
        exact absurd hfresh (by simp)
      constructor
      · simp [List.any_append, hpoll]
      · unfold pollOptsKey
        simp only []
        rw [List.filter_append, List.map_append,
          buildOptionRows_filter_ne _ _ _ _ hne]
        simp

theorem run_pollKey (pid : String) (ops : List Op) :
    ∀ db : DB, db.polls.any (fun p => p.id == pid) = true →
    (run db ops).polls.any (fun p => p.id == pid) = true ∧
    pollOptsKey (run db ops) pid = pollOptsKey db pid := by
  induction ops with
  | nil => exact fun db h => ⟨h, rfl⟩
  | cons op ops ih =>
    intro db h
    obtain ⟨h1, h2⟩ := applyOp_pollKey op h
    obtain ⟨h3, h4⟩ := ih _ h1
    exact ⟨h3, h4.trans h2⟩

/-! ## Claims about poll creation -/

/-- C7: for an accepted poll creation (with no pre-existing option rows
under the fresh identifier — guaranteed in reachable states because the
identifier is not yet in the polls table and options reference existing
polls), the number of persisted option rows for the poll equals the
number of distinct, length-valid submitted options; and after any
further sequence of requests, a tally shown for the poll lists exactly
the created options — the same (id, text) pairs up to the tally's
ordering by votes, none added, dropped or duplicated. -/
theorem created_options_persist_in_tally (db : DB) (q : Option String)
    (raws : List String) (pid : String) (now : Int) (db1 : DB)
    (hcln : db.options.filter (fun o => o.poll_id == pid) = [])
    (h : create_poll db q raws pid now = (.created, db1)) :
    (db1.options.filter (fun o => o.poll_id == pid)).length
        = (cleanOptions raws).eraseDups.length ∧
    ∀ (ops : List Op) (rows : List OptionRow) (total : Nat),
      resultsView (run db1 ops) pid = .shown rows total →
      List.Perm (rows.map (fun o => (o.id, o.option_text))) (pollOptsKey db1 pid) := by
  obtain ⟨hnd, hfresh, hpolls, hopts⟩ := create_poll_created h
  have hfilter : db1.options.filter (fun o => o.poll_id == pid)
      = buildOptionRows (nextOptionId db) pid (cleanOptions raws) := by
    rw [hopts, List.filter_append, hcln, buildOptionRows_filter_self]
    simp
  constructor
  · rw [hfilter, buildOptionRows_length]
    simpa [hasDup] using hnd
  · intro ops rows total hres
    have hpoll1 : db1.polls.any (fun p => p.id == pid) = true := by
      rw [hpolls]
      simp
    obtain ⟨hrany, hrkey⟩ := run_pollKey pid ops db1 hpoll1
    revert hres
    unfold resultsView
    split
    · intro hres
      exact absurd hres (by simp)
    · split
      · intro hres
        exact absurd hres (by simp)
      · intro hres
        injection hres with hrows htot
        subst hrows
        rw [← hrkey]
        exact List.Perm.map _ (List.perm_insertionSort tallyOrder _)

/-- Witness for C7 at the concrete creation: two distinct valid options
persist as exactly two rows, and the tally after no further requests
lists exactly those (id, text) pairs. -/
theorem created_options_persist_in_tally_witness :
    ((create_poll initDB (some "abcdefghij") ["Go", "Rust"] "aaaaaaaaaaaa" 0).2.options.filter
        (fun o => o.poll_id == "aaaaaaaaaaaa")).length
      = (cleanOptions ["Go", "Rust"]).eraseDups.length ∧
    List.Perm
      (([⟨1, "aaaaaaaaaaaa", "Go", 0⟩, ⟨2, "aaaaaaaaaaaa", "Rust", 0⟩] :
          List OptionRow).map (fun o => (o.id, o.option_text)))
      (pollOptsKey (create_poll initDB (some "abcdefghij") ["Go", "Rust"]
          "aaaaaaaaaaaa" 0).2 "aaaaaaaaaaaa") :=
  ⟨(created_options_persist_in_tally initDB (some "abcdefghij") ["Go", "Rust"]
      "aaaaaaaaaaaa" 0
      (create_poll initDB (some "abcdefghij") ["Go", "Rust"] "aaaaaaaaaaaa" 0).2
      (by decide) (by decide)).1,
   (created_options_persist_in_tally initDB (some "abcdefghij") ["Go", "Rust"]
      "aaaaaaaaaaaa" 0
      (create_poll initDB (some "abcdefghij") ["Go", "Rust"] "aaaaaaaaaaaa" 0).2
      (by decide) (by decide)).2 []
      [⟨1, "aaaaaaaaaaaa", "Go", 0⟩, ⟨2, "aaaaaaaaaaaa", "Rust", 0⟩] 0 (by decide)⟩

/-- C8: boundary conditions of create_poll: a 10-character question with
two valid options is accepted and a 9-character one rejected; one option
is rejected while the same submission with two is accepted; ten distinct
options are accepted and eleven rejected; a submission repeating the
same option text verbatim is rejected. -/
theorem create_poll_boundaries :
    (create_poll initDB (some "abcdefghij") ["Go", "Rust"] "aaaaaaaaaaaa" 0).1
        = .created ∧
    (create_poll initDB (some "abcdefghi") ["Go", "Rust"] "aaaaaaaaaaaa" 0).1
        = .questionTooShort ∧
    (create_poll initDB (some "abcdefghij") ["Go"] "aaaaaaaaaaaa" 0).1
        = .tooFewOptions ∧
    (create_poll initDB (some "abcdefghij")
        ["aa", "bb", "cc", "dd", "ee", "ff", "gg", "hh", "ii", "jj"] "aaaaaaaaaaaa" 0).1
        = .created ∧
    (create_poll initDB (some "abcdefghij")
        ["aa", "bb", "cc", "dd", "ee", "ff", "gg", "hh", "ii", "jj", "kk"]
        "aaaaaaaaaaaa" 0).1 = .tooManyOptions ∧
    (create_poll initDB (some "abcdefghij") ["Go", "Go", "Rust"] "aaaaaaaaaaaa" 0).1
        = .duplicateOptions :=
  ⟨by decide, by decide, by decide, by decide, by decide, by decide⟩

end ZamaPolls
